import Mathlib

/-!
Shallow embedding of the betflow selection/risk engine
(`src/selection_engine/selection_logic.py`, `backtesting.py`, `live_pipeline.py`).

Numeric values are modelled over `ℚ`; Python floats are treated as exact
rationals.  Dataframe rows become the `MatchRow` structure, where fields read
through `row.get(key, default)` in the source are `Option`-valued and the
default is applied at the read site, exactly as in the source.  Trained
ensemble models (`self.models[key]`, a dict of fitted sklearn models queried
through `predict_proba`) are abstracted as lists of partial prediction
functions `MatchRow → Option ℚ`: a model that raises inside the
`try/except` of `_get_model_prediction` returns `none` and is skipped,
mirroring the source's `predictions.append` on success only.
-/

namespace Betflow

/-- Outcome variant of a selection: `'over'` or `'under'`
(`selection_type` strings in the source). -/
inductive Variant
  | over
  | under
deriving DecidableEq

/-- `SelectionCriteria` dataclass with the source's default values
(selection_logic.py lines 24-36). -/
structure SelectionCriteria where
  min_confidence : ℚ := 70/100
  edge_min_bucket_70_74 : ℚ := 3/100
  edge_min_bucket_75_79 : ℚ := 4/100
  edge_min_bucket_80_plus : ℚ := 5/100
  clv_min : ℚ := 2/100
  max_selections_per_round : ℕ := 5
  max_selections_per_profile : ℕ := 3
  kelly_fraction : ℚ := 25/100
  max_stake_percentage : ℚ := 2/100
  stop_loss_percentage : ℚ := 10/100
deriving DecidableEq

/-- The default-constructed criteria, `SelectionCriteria()`. -/
def defaultCriteria : SelectionCriteria := {}

/-- The dict built by `_extract_key_features` (selection_logic.py 311-321),
with the source's `match.get` defaults already applied. -/
structure KeyFeatures where
  home_strength : ℚ
  away_strength : ℚ
  form_diff_5 : ℚ
  rest_advantage : ℚ
  market_drift_24h : ℚ
  lineup_confirmed : Bool
  weather_impact : ℚ
deriving DecidableEq

/-- One dataframe row as consumed by the selection engine and backtester.
A field is `Option`-valued when the source reads it via `row.get(key, default)`
and the column may be absent; `none` models an absent column.  Columns that are
consumed only inside the fitted models (via `_prepare_features`) are absorbed
into the abstract model functions and carried in `extra_features`. -/
structure MatchRow where
  match_id : String := "unknown"
  home_team : String := ""
  away_team : String := ""
  league : String := ""
  profile_a : Bool := false
  profile_b : Bool := false
  date : ℤ := 0
  goals_total : ℚ := 0
  implied_over_prob : Option ℚ := none
  implied_under_prob : Option ℚ := none
  opening_over_odds : Option ℚ := none
  opening_under_odds : Option ℚ := none
  closing_over_odds : Option ℚ := none
  closing_under_odds : Option ℚ := none
  home_strength : Option ℚ := none
  away_strength : Option ℚ := none
  form_diff_5 : Option ℚ := none
  rest_advantage : Option ℚ := none
  market_drift_24h : Option ℚ := none
  lineup_confirmed : Option Bool := none
  weather_impact : Option ℚ := none
  extra_features : List (String × ℚ) := []

/-- A fitted ensemble for one model key: each entry is one model's
`predict_proba(...)[0][1]`; `none` models a prediction that raises and is
skipped by the `try/except` in `_get_model_prediction`. -/
abbrev EnsembleModel := List (MatchRow → Option ℚ)

/-- `self.models`: a dict keyed by the string `f"{profile}_{target}"`. -/
abbrev ModelRegistry := List (String × EnsembleModel)

/-- The `Selection` dataclass (selection_logic.py 39-58).  Wall-clock values
(`selection_time`, `cutoff_time`) are integer timestamps; the clock is threaded
as an explicit `now` parameter below. -/
structure Selection where
  match_id : String
  home_team : String
  away_team : String
  league : String
  profile : String
  selection_type : Variant
  confidence : ℚ
  edge : ℚ
  clv : ℚ
  stake_percentage : ℚ
  stake_amount : ℚ
  odds : ℚ
  implied_prob : ℚ
  model_prob : ℚ
  selection_time : ℤ
  cutoff_time : ℤ
  features : KeyFeatures
deriving DecidableEq

/-- The mutable state of a `SelectionEngine` instance (selection_logic.py
64-70): criteria, loaded models, initial and current bankroll, history. -/
structure Engine where
  criteria : SelectionCriteria := defaultCriteria
  models : Option ModelRegistry := none
  bankroll : ℚ := 10000
  current_bankroll : ℚ := 10000
  selections_history : List Selection := []

/-- Python truthiness of `self.models`: `None` and the empty dict are falsy
(the guards `if not self.models` in `select_matches` and
`_get_model_prediction`). -/
def modelsFalsy : Option ModelRegistry → Bool
  | none => true
  | some ms => ms.isEmpty

/-- Return value of `_get_model_prediction`: the dict
`{'over_prob': _, 'under_prob': _}`. -/
structure PredPair where
  over_prob : ℚ
  under_prob : ℚ
deriving DecidableEq

/-- `_get_model_prediction` (selection_logic.py 125-166): missing registry or
missing `f"{profile}_{target}"` key falls back to `0.5/0.5`; otherwise the
ensemble mean of the successful per-model predictions (again `0.5` when every
model raised), oriented by the `target` string. -/
def getModelPrediction (models : Option ModelRegistry) (m : MatchRow)
    (profile target : String) : PredPair :=
  if modelsFalsy models then ⟨1/2, 1/2⟩
  else
    match (models.getD []).lookup (profile ++ "_" ++ target) with
    | none => ⟨1/2, 1/2⟩
    | some ensemble =>
      let predictions := ensemble.filterMap (fun model => model m)
      let ensemble_prob :=
        if predictions.isEmpty then 1/2 else predictions.sum / predictions.length
      if target = "over_2_5" then ⟨ensemble_prob, 1 - ensemble_prob⟩
      else ⟨1 - ensemble_prob, ensemble_prob⟩

/-- `_get_required_edge` (selection_logic.py 282-289). -/
def getRequiredEdge (c : SelectionCriteria) (confidence : ℚ) : ℚ :=
  if confidence ≥ 80/100 then c.edge_min_bucket_80_plus
  else if confidence ≥ 75/100 then c.edge_min_bucket_75_79
  else c.edge_min_bucket_70_74

/-- `_calculate_kelly_stake` (selection_logic.py 291-309). -/
def calculateKellyStake (c : SelectionCriteria) (model_prob odds : ℚ) : ℚ :=
  let win_prob := model_prob
  let loss_prob := 1 - win_prob
  let b := odds - 1
  if b ≤ 0 then 0
  else max 0 ((b * win_prob - loss_prob) / b * c.kelly_fraction)

/-- `_extract_key_features` (selection_logic.py 311-321), `get` defaults
applied. -/
def extractKeyFeatures (m : MatchRow) : KeyFeatures where
  home_strength := m.home_strength.getD 0
  away_strength := m.away_strength.getD 0
  form_diff_5 := m.form_diff_5.getD 0
  rest_advantage := m.rest_advantage.getD 0
  market_drift_24h := m.market_drift_24h.getD 0
  lineup_confirmed := m.lineup_confirmed.getD false
  weather_impact := m.weather_impact.getD 0

/-- The `model_prob` local of `_evaluate_selection`: over variant reads
`over_pred['over_prob']`, under variant reads `under_pred['under_prob']`. -/
def pickProb (selection_type : Variant) (over_pred under_pred : PredPair) : ℚ :=
  match selection_type with
  | .over => over_pred.over_prob
  | .under => under_pred.under_prob

/-- The `implied_prob` local of `_evaluate_selection`
(`match.get('implied_*_prob', 0.5)`). -/
def pickImplied (m : MatchRow) : Variant → ℚ
  | .over => m.implied_over_prob.getD (1/2)
  | .under => m.implied_under_prob.getD (1/2)

/-- The `odds` local of `_evaluate_selection`
(`match.get('opening_*_odds', 2.0)`). -/
def pickOdds (m : MatchRow) : Variant → ℚ
  | .over => m.opening_over_odds.getD 2
  | .under => m.opening_under_odds.getD 2

/-- The raw closing-odds column for the variant. -/
def pickClosing (m : MatchRow) : Variant → Option ℚ
  | .over => m.closing_over_odds
  | .under => m.closing_under_odds

/-- The `clv` local of `_evaluate_selection` (lines 243-245): the closing odds
default to the opening odds when the column is absent, so an absent closing
line yields `clv = 0`. -/
def clvOf (m : MatchRow) (selection_type : Variant) : ℚ :=
  1 / ((pickClosing m selection_type).getD (pickOdds m selection_type))
    - 1 / pickOdds m selection_type

/-- The stake clamp of `_evaluate_selection` (lines 250-257): the raw Kelly
stake amount is capped at `current_bankroll * max_stake_percentage`, and the
percentage is overwritten together with the amount.  Returns
`(stake_percentage, stake_amount)`. -/
def clampStake (e : Engine) (stake_percentage : ℚ) : ℚ × ℚ :=
  let stake_amount := e.current_bankroll * stake_percentage
  if stake_amount > e.current_bankroll * e.criteria.max_stake_percentage then
    (e.criteria.max_stake_percentage,
      e.current_bankroll * e.criteria.max_stake_percentage)
  else (stake_percentage, stake_amount)

/-- The `Selection(...)` record built at the end of `_evaluate_selection`
(lines 259-280). -/
def mkSelection (e : Engine) (now : ℤ) (m : MatchRow) (profile : String)
    (selection_type : Variant) (over_pred under_pred : PredPair) : Selection :=
  let model_prob := pickProb selection_type over_pred under_pred
  let odds := pickOdds m selection_type
  let stakes := clampStake e (calculateKellyStake e.criteria model_prob odds)
  { match_id := m.match_id
    home_team := m.home_team
    away_team := m.away_team
    league := m.league
    profile := profile
    selection_type := selection_type
    confidence := model_prob
    edge := model_prob - pickImplied m selection_type
    clv := clvOf m selection_type
    stake_percentage := stakes.1
    stake_amount := stakes.2
    odds := odds
    implied_prob := pickImplied m selection_type
    model_prob := model_prob
    selection_time := now
    cutoff_time := now + 3600
    features := extractKeyFeatures m }

/-- `_evaluate_selection` (selection_logic.py 216-280): the ordered gates
(confidence, bucketed edge, CLV) followed by Kelly staking.  Note that the CLV
gate is evaluated unconditionally; a missing closing-odds column gives
`clv = 0` via the `match.get(..., odds)` default. -/
def evaluateSelection (e : Engine) (now : ℤ) (m : MatchRow) (profile : String)
    (selection_type : Variant) (over_pred under_pred : PredPair) :
    Option Selection :=
  if pickProb selection_type over_pred under_pred < e.criteria.min_confidence then
    none
  else if pickProb selection_type over_pred under_pred - pickImplied m selection_type <
      getRequiredEdge e.criteria (pickProb selection_type over_pred under_pred) then
    none
  else if clvOf m selection_type < e.criteria.clv_min then
    none
  else
    some (mkSelection e now m profile selection_type over_pred under_pred)

/-- The dataframe column lookup `df[profile] == 1` for the two profile
columns; any other profile string would raise a `KeyError` in the source and
is modelled as an empty column. -/
def profileCol (m : MatchRow) (profile : String) : Bool :=
  if profile = "profile_a" then m.profile_a
  else if profile = "profile_b" then m.profile_b
  else false

/-- One step of a stable descending insertion sort on `confidence`.  A new
element is placed after every already-sorted element of greater-or-equal
confidence, which reproduces the (stable) behaviour of Python's
`list.sort(key=confidence, reverse=True)`. -/
def insertByConfDesc (s : Selection) : List Selection → List Selection
  | [] => [s]
  | t :: ts => if t.confidence < s.confidence then s :: t :: ts
               else t :: insertByConfDesc s ts

/-- Stable sort by confidence descending
(`selections.sort(key=lambda x: x.confidence, reverse=True)`). -/
def sortByConfDesc (l : List Selection) : List Selection :=
  l.foldl (fun acc s => insertByConfDesc s acc) []

/-- `_apply_selection_limits` (selection_logic.py 323-337).  The source
computes a per-profile truncation into the local `profile_selections` but
never uses it: only the confidence sort and the round-level truncation affect
the returned list. -/
def applySelectionLimits (c : SelectionCriteria) (selections : List Selection)
    (_profile : String) : List Selection :=
  (sortByConfDesc selections).take c.max_selections_per_round

/-- The candidate accumulation of the per-match loop in `select_matches`
(lines 95-117): for each row, evaluate the over and under variants against the
`over_2_5` and `under_2_5` model predictions and append whichever evaluations
return a selection. -/
def rawCandidates (e : Engine) (now : ℤ) (profile_data : List MatchRow)
    (profile : String) : List Selection :=
  profile_data.foldr
    (fun m acc =>
      let over_pred := getModelPrediction e.models m profile "over_2_5"
      let under_pred := getModelPrediction e.models m profile "under_2_5"
      (evaluateSelection e now m profile .over over_pred under_pred).toList ++
        (evaluateSelection e now m profile .under over_pred under_pred).toList ++
        acc)
    []

/-- `select_matches` (selection_logic.py 77-123). -/
def selectMatches (e : Engine) (now : ℤ) (df : List MatchRow)
    (profile : String) : List Selection :=
  if modelsFalsy e.models then []
  else
    let profile_data := df.filter (fun m => profileCol m profile)
    applySelectionLimits e.criteria (rawCandidates e now profile_data profile) profile

/-- A Python `Dict[str, bool]` of settlement results, keyed by `match_id`. -/
abbrev ResultsDict := List (String × Bool)

/-- `results[key] = value` on a Python dict: replace in place when the key is
present, append otherwise. -/
def dictInsert (d : ResultsDict) (k : String) (v : Bool) : ResultsDict :=
  if (d.lookup k).isSome then
    d.map (fun kv => if kv.1 = k then (k, v) else kv)
  else d ++ [(k, v)]

/-- The settlement loop of `SelectionEngine.update_performance`
(selection_logic.py 339-356): walk `selections_history`, settle each
selection whose `match_id` is in `results`, and `break` out of the loop as
soon as the running drawdown `(bankroll - current) / bankroll` exceeds
`stop_loss_percentage`.  The `break` only abandons the remainder of this
call; no flag of any kind is recorded. -/
def settleWithStop (c : SelectionCriteria) (bankroll0 : ℚ) (results : ResultsDict) :
    ℚ → List Selection → ℚ
  | bank, [] => bank
  | bank, s :: rest =>
    match results.lookup s.match_id with
    | none => settleWithStop c bankroll0 results bank rest
    | some res =>
      let bank' := if res then bank + s.stake_amount * (s.odds - 1)
                   else bank - s.stake_amount
      if (bankroll0 - bank') / bankroll0 > c.stop_loss_percentage then bank'
      else settleWithStop c bankroll0 results bank' rest

/-- `update_performance` (selection_logic.py 339-356): the only field written
is `current_bankroll`. -/
def updatePerformance (e : Engine) (results : ResultsDict) : Engine :=
  { e with current_bankroll :=
      (settleWithStop e.criteria e.bankroll results e.current_bankroll
        e.selections_history) }

/-! ### Backtester (`backtesting.py`) -/

/-- The minimal slice of `RoundReport` needed by the claims under study; the
remaining aggregate fields of the dataclass are pure reporting derived from
the same per-week selections and results. -/
structure RoundReport where
  round_id : String
  selections : ℕ
deriving DecidableEq

/-- `SelectionEngineBacktester` state (backtesting.py 59-65). -/
structure Backtester where
  engine : Engine
  initial_bankroll : ℚ := 10000
  current_bankroll : ℚ := 10000
  bankroll_history : List ℚ := [10000]
  round_reports : List RoundReport := []

/-- `_simulate_results` (backtesting.py 172-198).  The `np.random` fallback
used when a selection's teams are not found in the week's rows is modelled by
the oracle `rng`. -/
def simulateResults (rng : Selection → Bool) (selections : List Selection)
    (week_df : List MatchRow) : ResultsDict :=
  selections.foldl
    (fun results s =>
      let found := week_df.filter
        (fun m => m.home_team == s.home_team && m.away_team == s.away_team)
      let result :=
        match found with
        | [] => rng s
        | m :: _ =>
          match s.selection_type with
          | .over => decide (m.goals_total > 5/2)
          | .under => decide (m.goals_total < 5/2)
      dictInsert results s.match_id result)
    []

/-- `_update_bankroll` (backtesting.py 294-308): settle every selection found
in `results` — with no stop-loss check of any kind — then append the new
balance to `bankroll_history`.  The engine field is untouched. -/
def updateBankroll (bt : Backtester) (selections : List Selection)
    (results : ResultsDict) : Backtester :=
  let bank := selections.foldl
    (fun bank s =>
      match results.lookup s.match_id with
      | none => bank
      | some res =>
        if res then bank + s.stake_amount * (s.odds - 1)
        else bank - s.stake_amount)
    bt.current_bankroll
  { bt with current_bankroll := bank,
            bankroll_history := bt.bankroll_history ++ [bank] }

/-- `_test_week` (backtesting.py 126-170).  The `historical_data` parameter is
accepted — the caller computes it as the strictly-pre-week rows — but the body
never reads it: both profiles are selected with the engine's already-loaded
models.  Returns the optional round report, the week's `all_selections`, and
the updated backtester state. -/
def testWeek (bt : Backtester) (rng : Selection → Bool) (now : ℤ)
    (week_df : List MatchRow) (week_id : String)
    (historical_data : List MatchRow) :
    Option RoundReport × List Selection × Backtester :=
  let profile_a_selections := selectMatches bt.engine now week_df "profile_a"
  let profile_b_selections := selectMatches bt.engine now week_df "profile_b"
  let all_selections := profile_a_selections ++ profile_b_selections
  if all_selections.isEmpty then (none, [], bt)
  else
    let results := simulateResults rng all_selections week_df
    let bt' := updateBankroll bt all_selections results
    (some { round_id := week_id, selections := all_selections.length },
      all_selections, bt')

/-- One week's grouped rows (`weekly_groups[week_key]`, backtesting.py
109-124). -/
structure WeekGroup where
  key : String
  start_date : ℤ
  data : List MatchRow

/-- Stable ascending insertion by date, modelling `df.sort_values('date')`.
(The source's pandas quicksort need not be stable on equal dates; no claim
under study depends on the tie order.) -/
def insertByDateAsc (m : MatchRow) : List MatchRow → List MatchRow
  | [] => [m]
  | t :: ts => if t.date ≤ m.date then t :: insertByDateAsc m ts
               else m :: t :: ts

/-- Sort rows by date ascending. -/
def sortByDate (l : List MatchRow) : List MatchRow :=
  l.foldl (fun acc m => insertByDateAsc m acc) []

/-- Lexicographic insertion of a `(year, week)` key. -/
def insertKeyLex (k : ℤ × ℤ) : List (ℤ × ℤ) → List (ℤ × ℤ)
  | [] => [k]
  | t :: ts => if k.1 < t.1 ∨ (k.1 = t.1 ∧ k.2 ≤ t.2) then k :: t :: ts
               else t :: insertKeyLex k ts

/-- Sorted `(year, week)` group keys, as `df.groupby(['year','week'])`
iterates them. -/
def sortKeysLex (l : List (ℤ × ℤ)) : List (ℤ × ℤ) :=
  l.foldl (fun acc k => insertKeyLex k acc) []

/-- `group['date'].min()` over a (nonempty) group. -/
def minimumDate : List MatchRow → ℤ
  | [] => 0
  | m :: ms => (ms.map (fun x => x.date)).foldl min m.date

/-- `_group_by_weeks` (backtesting.py 109-124), parameterised by the
`isocalendar` year/week function on dates.  Groups iterate in sorted key
order, each keeping the date-sorted row order, as with pandas `groupby`.
(The `f"{year}_W{week:02d}"` zero padding of the label is not reproduced;
no claim reads the label's text.) -/
def groupByWeeks (isoWeek : ℤ → ℤ × ℤ) (data : List MatchRow) : List WeekGroup :=
  let keys := sortKeysLex ((data.map (fun m => isoWeek m.date)).eraseDups)
  keys.map (fun k =>
    let group := data.filter (fun m => isoWeek m.date == k)
    { key := toString k.1 ++ "_W" ++ toString k.2
      start_date := minimumDate group
      data := group })

/-- `if week_results: self.round_reports.append(week_results)` (backtesting.py
100-101). -/
def appendReport (bt : Backtester) : Option RoundReport → Backtester
  | some r => { bt with round_reports := bt.round_reports ++ [r] }
  | none => bt

/-- The per-week body of the `run_backtest` loop (backtesting.py 88-101):
compute the strictly-pre-week `historical_data`, skip the week when it has
fewer than 100 rows, otherwise run `_test_week` and append any report.  The
second component of the accumulator records each processed week's emitted
selections (the code's `all_selections` local), the observable trace used by
the theorems below. -/
def backtestStep (rng : Selection → Bool) (now : ℤ) (data : List MatchRow)
    (acc : Backtester × List (List Selection)) (wk : WeekGroup) :
    Backtester × List (List Selection) :=
  let historical := data.filter (fun m => m.date < wk.start_date)
  if historical.length < 100 then acc
  else
    let res := testWeek acc.1 rng now wk.data wk.key historical
    (appendReport res.2.2 res.1, acc.2 ++ [res.2.1])

/-- `run_backtest` (backtesting.py 67-107): filter to the period, sort by
date, group into weeks, and fold the weekly step. -/
def runBacktest (isoWeek : ℤ → ℤ × ℤ) (rng : Selection → Bool)
    (bt : Backtester) (now : ℤ) (df : List MatchRow)
    (start_date end_date : ℤ) : Backtester × List (List Selection) :=
  let data := sortByDate
    (df.filter (fun m => start_date ≤ m.date ∧ m.date ≤ end_date))
  let weeks := groupByWeeks isoWeek data
  weeks.foldl (backtestStep rng now data) (bt, [])

/-! ### Live pipeline (`live_pipeline.py`) -/

/-- The `LiveMatch` dataclass (live_pipeline.py 23-33) after `_parse_matches`:
the `features` and `market_data` dicts already have the `_extract_features` /
`_extract_market_data` defaults applied (in particular absent closing odds
have been replaced by the literal `2.0`, live_pipeline.py 195-196). -/
structure LiveMatch where
  match_id : String
  home_team : String := ""
  away_team : String := ""
  league : String := ""
  start_time : ℤ := 0
  profile : String
  lineup_confirmed : Bool := false
  weather_impact : ℚ := 0
  opening_over_odds : ℚ := 2
  opening_under_odds : ℚ := 2
  closing_over_odds : ℚ := 2
  closing_under_odds : ℚ := 2
  market_drift_24h : ℚ := 0
  market_drift_1h : ℚ := 0

/-- `_matches_to_dataframe` (live_pipeline.py 201-225).  The produced rows
carry no `implied_*_prob` columns (so `_evaluate_selection` falls back to its
`0.5` defaults) and no strength/form key-feature columns. -/
def matchesToDataframe (ms : List LiveMatch) : List MatchRow :=
  ms.map (fun m =>
    { match_id := m.match_id
      home_team := m.home_team
      away_team := m.away_team
      league := m.league
      date := m.start_time
      profile_a := m.profile == "profile_a"
      profile_b := m.profile == "profile_b"
      opening_over_odds := some m.opening_over_odds
      opening_under_odds := some m.opening_under_odds
      closing_over_odds := some m.closing_over_odds
      closing_under_odds := some m.closing_under_odds
      market_drift_24h := some m.market_drift_24h
      lineup_confirmed := some m.lineup_confirmed
      weather_impact := some m.weather_impact
      extra_features := [("market_drift_1h", m.market_drift_1h)] })

/-- `_apply_gatekeeper` (live_pipeline.py 227-258).  The market-stability
check reads `selection.features.get('market_drift_1h', 0)`, but
`_extract_key_features` never stores that key, so the read is the constant
`0` and the check never rejects. -/
def applyGatekeeper (selections : List Selection) : List Selection :=
  selections.foldr
    (fun s acc =>
      if s.confidence < 75/100 then acc
      else if s.edge < 4/100 then acc
      else if s.clv < 2/100 then acc
      else if s.profile == "profile_b" && !s.features.lineup_confirmed then acc
      else if |(0 : ℚ)| > 5/100 then acc
      else if s.odds < 3/2 ∨ s.odds > 3 then acc
      else s :: acc)
    []

/-- The per-cycle evaluation set of `_recompute_selections` (live_pipeline.py
93-104): the fetched matches batched per profile.  No state and no clock
appears: the source applies no cutoff, staleness, or dedup filtering here. -/
def cycleEvaluationSet (upcoming : List LiveMatch) : List LiveMatch :=
  ["profile_a", "profile_b"].foldl
    (fun acc profile => acc ++ upcoming.filter (fun m => m.profile == profile))
    []

/-- `_recompute_selections` (live_pipeline.py 81-116) as a pure function of
the engine, the clock, and the fetched matches: per profile, build the
dataframe, run `select_matches`, apply the gatekeeper, and concatenate the
qualified selections (each of which `_send_selection_alerts` then dispatches).
The method writes no pipeline state: `active_selections` is never updated and
the engine is only read, so successive cycles share nothing. -/
def recomputeSelections (e : Engine) (now : ℤ) (upcoming : List LiveMatch) :
    List Selection :=
  ["profile_a", "profile_b"].foldl
    (fun qualified profile =>
      let profile_matches := upcoming.filter (fun m => m.profile == profile)
      if profile_matches.isEmpty then qualified
      else qualified ++
        applyGatekeeper
          (selectMatches e now (matchesToDataframe profile_matches) profile))
    []

/-- The `(match, variant)` keys alerted in one recompute cycle
(`_send_selection_alerts` posts one alert per qualified selection,
live_pipeline.py 260-293). -/
def alertKeys (e : Engine) (now : ℤ) (upcoming : List LiveMatch) :
    List (String × Variant) :=
  (recomputeSelections e now upcoming).map (fun s => (s.match_id, s.selection_type))

/-- All alerts dispatched over a live session of recompute cycles, each cycle
given as (clock value, fetched matches).  Because `_recompute_selections`
mutates no pipeline state, a session's alerts are exactly the concatenation
of the per-cycle alerts. -/
def liveRunAlerts (e : Engine) (cycles : List (ℤ × List LiveMatch)) :
    List (String × Variant) :=
  cycles.foldr (fun c acc => alertKeys e c.1 c.2 ++ acc) []

/-! ### Concrete test fixtures

Small concrete registries, rows and engine states used by the witnesses and
counterexamples below.  `exModels` is an ensemble registry for `profile_a`
whose over model predicts `0.8` and whose under model predicts `0.2`
(probabilities an actual fitted ensemble could return). -/

/-- A registry holding one over model (probability `0.8`) and one under model
(probability `0.2`) for `profile_a`. -/
def exModels : ModelRegistry :=
  [("profile_a_over_2_5", [fun _ => some (4/5)]),
   ("profile_a_under_2_5", [fun _ => some (1/5)])]

/-- A freshly constructed engine (default criteria, bankroll `10000`) with
`exModels` loaded. -/
def exEngine : Engine := { models := some exModels }

/-- A historical dataframe row: implied over probability `0.5`, opening over
odds `2.0`, closing over odds `5/3` (the line shortened, CLV `0.1`). -/
def exMatchA : MatchRow :=
  { match_id := "m1", home_team := "H", away_team := "A",
    league := "premier-league", profile_a := true,
    implied_over_prob := some (1/2),
    opening_over_odds := some 2,
    closing_over_odds := some (5/3) }

/-- The selection that `exEngine` emits for `exMatchA` when evaluated at
clock value `t`: confidence `0.8`, edge `0.3`, CLV `0.1`, Kelly stake
`0.15` clamped to the `0.02` cap, stake amount `200`. -/
def exSelAt (t : ℤ) : Selection :=
  { match_id := "m1", home_team := "H", away_team := "A",
    league := "premier-league", profile := "profile_a",
    selection_type := .over,
    confidence := 4/5, edge := 3/10, clv := 1/10,
    stake_percentage := 1/50, stake_amount := 200,
    odds := 2, implied_prob := 1/2, model_prob := 4/5,
    selection_time := t, cutoff_time := t + 3600,
    features := ⟨0, 0, 0, 0, 0, false, 0⟩ }

/-- Like `exMatchA` but with no closing-odds column at all. -/
def exMatchNoClose : MatchRow :=
  { match_id := "m1", home_team := "H", away_team := "A",
    league := "premier-league", profile_a := true,
    implied_over_prob := some (1/2),
    opening_over_odds := some 2 }

/-- A registry whose over model predicts `0.8` and whose under model predicts
`0.78`, so that both variants of a suitable match pass every gate. -/
def exModels7 : ModelRegistry :=
  [("profile_a_over_2_5", [fun _ => some (4/5)]),
   ("profile_a_under_2_5", [fun _ => some (78/100)])]

/-- Engine with `exModels7` loaded. -/
def exEngine7 : Engine := { models := some exModels7 }

/-- A row on which both the over and the under variant pass every gate of
`exEngine7`: implied probabilities `0.5/0.5`, both opening odds `2.0`, both
closing odds `5/3`. -/
def exMatch7 : MatchRow :=
  { match_id := "m1", home_team := "H", away_team := "A",
    league := "premier-league", profile_a := true,
    implied_over_prob := some (1/2), implied_under_prob := some (1/2),
    opening_over_odds := some 2, opening_under_odds := some 2,
    closing_over_odds := some (5/3), closing_under_odds := some (5/3) }

/-- The over selection of `exMatch7` under `exEngine7` (confidence `0.8`). -/
def exSel7over : Selection :=
  { match_id := "m1", home_team := "H", away_team := "A",
    league := "premier-league", profile := "profile_a",
    selection_type := .over,
    confidence := 4/5, edge := 3/10, clv := 1/10,
    stake_percentage := 1/50, stake_amount := 200,
    odds := 2, implied_prob := 1/2, model_prob := 4/5,
    selection_time := 0, cutoff_time := 3600,
    features := ⟨0, 0, 0, 0, 0, false, 0⟩ }

/-- The under selection of `exMatch7` under `exEngine7` (confidence `0.78`,
bucket 75-79, required edge `0.04`, edge `0.28`). -/
def exSel7under : Selection :=
  { match_id := "m1", home_team := "H", away_team := "A",
    league := "premier-league", profile := "profile_a",
    selection_type := .under,
    confidence := 78/100, edge := 28/100, clv := 1/10,
    stake_percentage := 1/50, stake_amount := 200,
    odds := 2, implied_prob := 1/2, model_prob := 78/100,
    selection_time := 0, cutoff_time := 3600,
    features := ⟨0, 0, 0, 0, 0, false, 0⟩ }

/-- First of two equal-confidence rows (confidence `0.8` each under
`exEngine`); its edge `0.25` is the smaller of the two. -/
def exMatchT1 : MatchRow :=
  { match_id := "t1", home_team := "H1", away_team := "A1",
    league := "premier-league", profile_a := true,
    implied_over_prob := some (55/100),
    opening_over_odds := some 2,
    closing_over_odds := some (5/3) }

/-- Second equal-confidence row; its edge `0.3` is the larger. -/
def exMatchT2 : MatchRow :=
  { match_id := "t2", home_team := "H2", away_team := "A2",
    league := "premier-league", profile_a := true,
    implied_over_prob := some (1/2),
    opening_over_odds := some 2,
    closing_over_odds := some (5/3) }

/-- The selection emitted for `exMatchT1` (edge `0.25`). -/
def exSelT1 : Selection :=
  { match_id := "t1", home_team := "H1", away_team := "A1",
    league := "premier-league", profile := "profile_a",
    selection_type := .over,
    confidence := 4/5, edge := 25/100, clv := 1/10,
    stake_percentage := 1/50, stake_amount := 200,
    odds := 2, implied_prob := 55/100, model_prob := 4/5,
    selection_time := 0, cutoff_time := 3600,
    features := ⟨0, 0, 0, 0, 0, false, 0⟩ }

/-- The selection emitted for `exMatchT2` (edge `0.3`). -/
def exSelT2 : Selection :=
  { match_id := "t2", home_team := "H2", away_team := "A2",
    league := "premier-league", profile := "profile_a",
    selection_type := .over,
    confidence := 4/5, edge := 3/10, clv := 1/10,
    stake_percentage := 1/50, stake_amount := 200,
    odds := 2, implied_prob := 1/2, model_prob := 4/5,
    selection_time := 0, cutoff_time := 3600,
    features := ⟨0, 0, 0, 0, 0, false, 0⟩ }

/-- A live upcoming match carrying the same market data as `exMatchA` (after
`_extract_market_data` defaults). -/
def exLiveMatch : LiveMatch :=
  { match_id := "m1", home_team := "H", away_team := "A",
    league := "premier-league", start_time := 0, profile := "profile_a",
    closing_over_odds := 5/3 }

/-- The dataframe row `_matches_to_dataframe` builds from `exLiveMatch`. -/
def exLiveRow : MatchRow :=
  { match_id := "m1", home_team := "H", away_team := "A",
    league := "premier-league", profile_a := true, profile_b := false,
    date := 0,
    opening_over_odds := some 2, opening_under_odds := some 2,
    closing_over_odds := some (5/3), closing_under_odds := some 2,
    market_drift_24h := some 0, lineup_confirmed := some false,
    weather_impact := some 0,
    extra_features := [("market_drift_1h", 0)] }

/-- A settled losing selection with the realistic stake a `10000` bankroll
produces (`2%` cap, amount `200`), used to build settlement histories. -/
def lossSel (id : String) : Selection :=
  { match_id := id, home_team := "H", away_team := "A",
    league := "premier-league", profile := "profile_a",
    selection_type := .over,
    confidence := 4/5, edge := 3/10, clv := 1/10,
    stake_percentage := 1/50, stake_amount := 200,
    odds := 2, implied_prob := 1/2, model_prob := 4/5,
    selection_time := 0, cutoff_time := 3600,
    features := ⟨0, 0, 0, 0, 0, false, 0⟩ }

/-- Six settled selections in the engine history. -/
def exHist : List Selection :=
  [lossSel "l1", lossSel "l2", lossSel "l3", lossSel "l4", lossSel "l5",
   lossSel "l6"]

/-- All six selections lose. -/
def exResultsLose : ResultsDict :=
  [("l1", false), ("l2", false), ("l3", false), ("l4", false), ("l5", false),
   ("l6", false)]

/-- Engine about to settle `exHist`: losing all six stakes of `200` drops the
bankroll to `8800`, a drawdown of `12% > 10%`. -/
def exE6 : Engine := { models := some exModels, selections_history := exHist }

/-- The selection `exMatchA` yields once the bankroll sits at `8800`
(stake amount `176 = 8800 * 2%`). -/
def exSel6 : Selection :=
  { match_id := "m1", home_team := "H", away_team := "A",
    league := "premier-league", profile := "profile_a",
    selection_type := .over,
    confidence := 4/5, edge := 3/10, clv := 1/10,
    stake_percentage := 1/50, stake_amount := 176,
    odds := 2, implied_prob := 1/2, model_prob := 4/5,
    selection_time := 0, cutoff_time := 3600,
    features := ⟨0, 0, 0, 0, 0, false, 0⟩ }

/-- `exE6` after settling all six losses: only the bankroll moved. -/
def exE6b : Engine :=
  { criteria := defaultCriteria, models := some exModels, bankroll := 10000,
    current_bankroll := 8800, selections_history := exHist }

/-! ### Structural lemmas -/

/-- With loaded (truthy) models, `select_matches` is the limit-application of
the per-row candidate accumulation over the profile-filtered rows. -/
theorem selectMatches_eval (e : Engine) (now : ℤ) (df : List MatchRow)
    (profile : String) (h : modelsFalsy e.models = false) :
    selectMatches e now df profile =
      applySelectionLimits e.criteria
        (rawCandidates e now (df.filter (fun m => profileCol m profile)) profile)
        profile := by
  rw [selectMatches, h]
  simp

/-! ### Evaluation of the fixtures -/

/-- The over-target prediction of `exModels` on any row. -/
theorem exModels_over (m : MatchRow) :
    getModelPrediction (some exModels) m "profile_a" "over_2_5" = ⟨4/5, 1/5⟩ := by
  simp [getModelPrediction, modelsFalsy, exModels, List.lookup, List.filterMap]
  norm_num

/-- The under-target prediction of `exModels` on any row. -/
theorem exModels_under (m : MatchRow) :
    getModelPrediction (some exModels) m "profile_a" "under_2_5" = ⟨4/5, 1/5⟩ := by
  simp [getModelPrediction, modelsFalsy, exModels, List.lookup, List.filterMap]
  norm_num

/-- `exEngine` accepts the over variant of `exMatchA` at any clock value. -/
theorem exEval_over (t : ℤ) :
    evaluateSelection exEngine t exMatchA "profile_a" .over ⟨4/5, 1/5⟩ ⟨4/5, 1/5⟩ =
      some (exSelAt t) := by
  rw [evaluateSelection]
  norm_num [pickProb, pickImplied, pickOdds, pickClosing, clvOf, getRequiredEdge,
    defaultCriteria, exEngine, exMatchA, mkSelection, clampStake,
    calculateKellyStake, extractKeyFeatures, exSelAt]

/-- `exEngine` rejects the under variant of any row at the confidence gate
(`0.2 < 0.7`). -/
theorem exEval_under (t : ℤ) (m : MatchRow) :
    evaluateSelection exEngine t m "profile_a" .under ⟨4/5, 1/5⟩ ⟨4/5, 1/5⟩ =
      none := by
  rw [evaluateSelection]
  norm_num [pickProb, defaultCriteria, exEngine]

/-- Candidate accumulation over the single row `exMatchA`. -/
theorem exRaw (t : ℤ) :
    rawCandidates exEngine t [exMatchA] "profile_a" = [exSelAt t] := by
  rw [rawCandidates]
  simp only [List.foldr]
  rw [show exEngine.models = some exModels from rfl, exModels_over, exModels_under,
    exEval_over, exEval_under]
  simp

/-- `select_matches` on the single row `exMatchA`. -/
theorem exSelect (t : ℤ) :
    selectMatches exEngine t [exMatchA] "profile_a" = [exSelAt t] := by
  rw [selectMatches_eval exEngine t [exMatchA] "profile_a" rfl]
  rw [show [exMatchA].filter (fun m => profileCol m "profile_a") = [exMatchA] by
    simp [profileCol, exMatchA]]
  rw [exRaw]
  simp [applySelectionLimits, sortByConfDesc, insertByConfDesc, exEngine,
    defaultCriteria]

/-- The over-target prediction of `exModels7` on any row. -/
theorem exModels7_over (m : MatchRow) :
    getModelPrediction (some exModels7) m "profile_a" "over_2_5" = ⟨4/5, 1/5⟩ := by
  simp [getModelPrediction, modelsFalsy, exModels7, List.lookup, List.filterMap]
  norm_num

/-- The under-target prediction of `exModels7` on any row. -/
theorem exModels7_under (m : MatchRow) :
    getModelPrediction (some exModels7) m "profile_a" "under_2_5" =
      ⟨22/100, 78/100⟩ := by
  simp [getModelPrediction, modelsFalsy, exModels7, List.lookup, List.filterMap]
  norm_num

/-- `exEngine7` accepts the over variant of `exMatch7`. -/
theorem exEval7_over :
    evaluateSelection exEngine7 0 exMatch7 "profile_a" .over ⟨4/5, 1/5⟩
      ⟨22/100, 78/100⟩ = some exSel7over := by
  rw [evaluateSelection]
  norm_num [pickProb, pickImplied, pickOdds, pickClosing, clvOf, getRequiredEdge,
    defaultCriteria, exEngine7, exMatch7, mkSelection, clampStake,
    calculateKellyStake, extractKeyFeatures, exSel7over]

/-- `exEngine7` also accepts the under variant of `exMatch7`. -/
theorem exEval7_under :
    evaluateSelection exEngine7 0 exMatch7 "profile_a" .under ⟨4/5, 1/5⟩
      ⟨22/100, 78/100⟩ = some exSel7under := by
  rw [evaluateSelection]
  norm_num [pickProb, pickImplied, pickOdds, pickClosing, clvOf, getRequiredEdge,
    defaultCriteria, exEngine7, exMatch7, mkSelection, clampStake,
    calculateKellyStake, extractKeyFeatures, exSel7under]

/-- Candidate accumulation over `exMatch7`: both variants of the one match. -/
theorem exRaw7 :
    rawCandidates exEngine7 0 [exMatch7] "profile_a" =
      [exSel7over, exSel7under] := by
  rw [rawCandidates]
  simp only [List.foldr]
  rw [show exEngine7.models = some exModels7 from rfl, exModels7_over,
    exModels7_under, exEval7_over, exEval7_under]
  simp

/-- `select_matches` keeps both variants of `exMatch7`, higher confidence
first. -/
theorem exSelect7 :
    selectMatches exEngine7 0 [exMatch7] "profile_a" =
      [exSel7over, exSel7under] := by
  rw [selectMatches_eval exEngine7 0 [exMatch7] "profile_a" rfl]
  rw [show [exMatch7].filter (fun m => profileCol m "profile_a") = [exMatch7] by
    simp [profileCol, exMatch7]]
  rw [exRaw7]
  rw [applySelectionLimits, sortByConfDesc]
  norm_num [insertByConfDesc, exSel7over, exSel7under, exEngine7, defaultCriteria]

/-- `exEngine` accepts the over variant of `exMatchT1` (edge `0.25`). -/
theorem exEvalT1 :
    evaluateSelection exEngine 0 exMatchT1 "profile_a" .over ⟨4/5, 1/5⟩
      ⟨4/5, 1/5⟩ = some exSelT1 := by
  rw [evaluateSelection]
  norm_num [pickProb, pickImplied, pickOdds, pickClosing, clvOf, getRequiredEdge,
    defaultCriteria, exEngine, exMatchT1, mkSelection, clampStake,
    calculateKellyStake, extractKeyFeatures, exSelT1]

/-- `exEngine` accepts the over variant of `exMatchT2` (edge `0.3`). -/
theorem exEvalT2 :
    evaluateSelection exEngine 0 exMatchT2 "profile_a" .over ⟨4/5, 1/5⟩
      ⟨4/5, 1/5⟩ = some exSelT2 := by
  rw [evaluateSelection]
  norm_num [pickProb, pickImplied, pickOdds, pickClosing, clvOf, getRequiredEdge,
    defaultCriteria, exEngine, exMatchT2, mkSelection, clampStake,
    calculateKellyStake, extractKeyFeatures, exSelT2]

/-- Candidate accumulation over the equal-confidence pair. -/
theorem exRawT :
    rawCandidates exEngine 0 [exMatchT1, exMatchT2] "profile_a" =
      [exSelT1, exSelT2] := by
  rw [rawCandidates]
  simp only [List.foldr]
  rw [show exEngine.models = some exModels from rfl]
  simp only [exModels_over, exModels_under, exEvalT1, exEvalT2, exEval_under]
  simp

/-- With equal confidences the stable sort keeps insertion order: the
lower-edge `exSelT1` stays in front of the higher-edge `exSelT2`. -/
theorem exSelectT :
    selectMatches exEngine 0 [exMatchT1, exMatchT2] "profile_a" =
      [exSelT1, exSelT2] := by
  rw [selectMatches_eval exEngine 0 [exMatchT1, exMatchT2] "profile_a" rfl]
  rw [show [exMatchT1, exMatchT2].filter (fun m => profileCol m "profile_a") =
      [exMatchT1, exMatchT2] by simp [profileCol, exMatchT1, exMatchT2]]
  rw [exRawT]
  rw [applySelectionLimits, sortByConfDesc]
  norm_num [insertByConfDesc, exSelT1, exSelT2, exEngine, defaultCriteria]

/-- The dataframe `_matches_to_dataframe` builds from `exLiveMatch`. -/
theorem exMdf : matchesToDataframe [exLiveMatch] = [exLiveRow] := by
  simp [matchesToDataframe, exLiveMatch, exLiveRow]

/-- The live row evaluates to the same selection as the historical row
(implied probabilities fall back to `0.5`). -/
theorem exEvalLive (t : ℤ) :
    evaluateSelection exEngine t exLiveRow "profile_a" .over ⟨4/5, 1/5⟩
      ⟨4/5, 1/5⟩ = some (exSelAt t) := by
  rw [evaluateSelection]
  norm_num [pickProb, pickImplied, pickOdds, pickClosing, clvOf, getRequiredEdge,
    defaultCriteria, exEngine, exLiveRow, mkSelection, clampStake,
    calculateKellyStake, extractKeyFeatures, exSelAt]

/-- Candidate accumulation over the live row. -/
theorem exRawLive (t : ℤ) :
    rawCandidates exEngine t [exLiveRow] "profile_a" = [exSelAt t] := by
  rw [rawCandidates]
  simp only [List.foldr]
  rw [show exEngine.models = some exModels from rfl]
  simp only [exModels_over, exModels_under, exEvalLive, exEval_under]
  simp

/-- `select_matches` on the live row. -/
theorem exSelectLive (t : ℤ) :
    selectMatches exEngine t [exLiveRow] "profile_a" = [exSelAt t] := by
  rw [selectMatches_eval exEngine t [exLiveRow] "profile_a" rfl]
  rw [show [exLiveRow].filter (fun m => profileCol m "profile_a") = [exLiveRow] by
    simp [profileCol, exLiveRow]]
  rw [exRawLive]
  simp [applySelectionLimits, sortByConfDesc, insertByConfDesc, exEngine,
    defaultCriteria]

/-- The gatekeeper passes `exSelAt t` (confidence `0.8 ≥ 0.75`, edge
`0.3 ≥ 0.04`, CLV `0.1 ≥ 0.02`, profile a, odds `2` in range). -/
theorem exGate (t : ℤ) : applyGatekeeper [exSelAt t] = [exSelAt t] := by
  rw [applyGatekeeper]
  norm_num [exSelAt]
  simp

/-- One live recompute cycle over the fetched match `exLiveMatch` qualifies
and alerts exactly the over selection, whatever the clock value. -/
theorem exRecompute (t : ℤ) :
    recomputeSelections exEngine t [exLiveMatch] = [exSelAt t] := by
  rw [recomputeSelections]
  simp only [List.foldl]
  rw [show [exLiveMatch].filter (fun m => m.profile == "profile_a") =
      [exLiveMatch] by simp [exLiveMatch]]
  rw [show [exLiveMatch].filter (fun m => m.profile == "profile_b") =
      ([] : List LiveMatch) by simp [exLiveMatch]]
  simp only [List.isEmpty, if_true, if_false]
  rw [exMdf, exSelectLive, exGate]
  simp

/-- With no closing-odds column, the CLV defaults make `_evaluate_selection`
reject `exMatchNoClose` even though every other gate passes. -/
theorem exEvalNoClose :
    evaluateSelection exEngine 0 exMatchNoClose "profile_a" .over ⟨4/5, 1/5⟩
      ⟨4/5, 1/5⟩ = none := by
  rw [evaluateSelection]
  norm_num [pickProb, pickImplied, pickOdds, pickClosing, clvOf, getRequiredEdge,
    defaultCriteria, exEngine, exMatchNoClose]

/-- Settling the six losses of `exE6` moves only the bankroll: the resulting
state is `exE6b` (balance `8800`, a drawdown of `12%`). -/
theorem exUpdate6 : updatePerformance exE6 exResultsLose = exE6b := by
  rw [updatePerformance]
  simp [exE6, exE6b, settleWithStop, exHist, exResultsLose, lossSel,
    List.lookup, defaultCriteria]
  norm_num

/-- A second `update_performance` call on the settled state settles the
history again: the balance drops further to `8600` (the stop-loss `break`
fires after the first re-settled loss). -/
theorem exUpdate6again :
    (updatePerformance exE6b exResultsLose).current_bankroll = 8600 := by
  rw [updatePerformance]
  simp [exE6b, settleWithStop, exHist, exResultsLose, lossSel,
    List.lookup, defaultCriteria]
  norm_num

/-- At bankroll `8800` the engine still accepts `exMatchA`, with the stake
cap now `176`. -/
theorem exEval6 :
    evaluateSelection exE6b 0 exMatchA "profile_a" .over ⟨4/5, 1/5⟩
      ⟨4/5, 1/5⟩ = some exSel6 := by
  rw [evaluateSelection]
  norm_num [pickProb, pickImplied, pickOdds, pickClosing, clvOf, getRequiredEdge,
    defaultCriteria, exE6b, exMatchA, mkSelection, clampStake,
    calculateKellyStake, extractKeyFeatures, exSel6]

/-- The under variant is likewise rejected by `exE6b`. -/
theorem exEval6_under (m : MatchRow) :
    evaluateSelection exE6b 0 m "profile_a" .under ⟨4/5, 1/5⟩ ⟨4/5, 1/5⟩ =
      none := by
  rw [evaluateSelection]
  norm_num [pickProb, defaultCriteria, exE6b]

/-- Candidate accumulation for the halted-drawdown engine. -/
theorem exRaw6 : rawCandidates exE6b 0 [exMatchA] "profile_a" = [exSel6] := by
  rw [rawCandidates]
  simp only [List.foldr]
  rw [show exE6b.models = some exModels from rfl]
  simp only [exModels_over, exModels_under, exEval6, exEval6_under]
  simp

/-- Despite the `12%` drawdown, `select_matches` still emits a selection. -/
theorem exSelect6 : selectMatches exE6b 0 [exMatchA] "profile_a" = [exSel6] := by
  rw [selectMatches_eval exE6b 0 [exMatchA] "profile_a" rfl]
  rw [show [exMatchA].filter (fun m => profileCol m "profile_a") = [exMatchA] by
    simp [profileCol, exMatchA]]
  rw [exRaw6]
  simp [applySelectionLimits, sortByConfDesc, insertByConfDesc, exE6b,
    defaultCriteria]

/-! ### Provenance of emitted selections -/

/-- Membership in a stable insertion step. -/
theorem mem_insertByConfDesc (a s : Selection) (l : List Selection) :
    a ∈ insertByConfDesc s l ↔ a = s ∨ a ∈ l := by
  induction l with
  | nil => simp [insertByConfDesc]
  | cons t ts ih =>
    rw [insertByConfDesc]
    by_cases hc : t.confidence < s.confidence
    · rw [if_pos hc]
      simp [List.mem_cons]
    · rw [if_neg hc]
      simp only [List.mem_cons, ih]
      tauto

/-- Membership through the sorting fold. -/
theorem mem_foldl_insertByConfDesc (a : Selection) (l : List Selection) :
    ∀ acc, (a ∈ l.foldl (fun ac s => insertByConfDesc s ac) acc ↔
      a ∈ acc ∨ a ∈ l) := by
  induction l with
  | nil => intro acc; simp
  | cons s ts ih =>
    intro acc
    rw [List.foldl_cons, ih (insertByConfDesc s acc), mem_insertByConfDesc]
    simp only [List.mem_cons]
    tauto

/-- Sorting by confidence permutes membership only. -/
theorem mem_sortByConfDesc (a : Selection) (l : List Selection) :
    a ∈ sortByConfDesc l ↔ a ∈ l := by
  rw [sortByConfDesc, mem_foldl_insertByConfDesc]
  simp

/-- Every accumulated candidate comes from a successful
`_evaluate_selection`. -/
theorem mem_rawCandidates (e : Engine) (now : ℤ) (l : List MatchRow)
    (profile : String) (s : Selection) (h : s ∈ rawCandidates e now l profile) :
    ∃ m st op up, evaluateSelection e now m profile st op up = some s := by
  induction l with
  | nil => simp [rawCandidates] at h
  | cons m ms ih =>
    rw [rawCandidates, List.foldr] at h
    rcases List.mem_append.mp h with h12 | h3
    · rcases List.mem_append.mp h12 with h1 | h2
      · refine ⟨m, .over, getModelPrediction e.models m profile "over_2_5",
          getModelPrediction e.models m profile "under_2_5", ?_⟩
        simpa using h1
      · refine ⟨m, .under, getModelPrediction e.models m profile "over_2_5",
          getModelPrediction e.models m profile "under_2_5", ?_⟩
        simpa using h2
    · exact ih h3

/-- Every selection emitted by `select_matches` comes from a successful
`_evaluate_selection`. -/
theorem mem_selectMatches (e : Engine) (now : ℤ) (df : List MatchRow)
    (profile : String) (s : Selection) (h : s ∈ selectMatches e now df profile) :
    ∃ m st op up, evaluateSelection e now m profile st op up = some s := by
  rw [selectMatches] at h
  rcases hm : modelsFalsy e.models with _ | _
  · rw [hm] at h
    simp only [Bool.false_eq_true, if_false] at h
    rw [applySelectionLimits] at h
    have h2 := List.take_subset _ _ h
    exact mem_rawCandidates e now _ profile s ((mem_sortByConfDesc s _).mp h2)
  · rw [hm] at h
    simp at h

/-- Gate facts recoverable from a successful evaluation. -/
theorem evaluateSelection_some_eq (e : Engine) (now : ℤ) (m : MatchRow)
    (profile : String) (st : Variant) (op up : PredPair) (s : Selection)
    (h : evaluateSelection e now m profile st op up = some s) :
    s = mkSelection e now m profile st op up ∧
    e.criteria.min_confidence ≤ pickProb st op up ∧
    getRequiredEdge e.criteria (pickProb st op up) ≤
      pickProb st op up - pickImplied m st ∧
    e.criteria.clv_min ≤ clvOf m st := by
  rw [evaluateSelection] at h
  split at h
  next => exact absurd h (by simp)
  next hc =>
    split at h
    next => exact absurd h (by simp)
    next he =>
      split at h
      next => exact absurd h (by simp)
      next hv =>
        exact ⟨(Option.some.inj h).symm, not_lt.mp hc, not_lt.mp he,
          not_lt.mp hv⟩

/-- Field values of the constructed selection record. -/
theorem mkSelection_confidence (e : Engine) (now : ℤ) (m : MatchRow)
    (profile : String) (st : Variant) (op up : PredPair) :
    (mkSelection e now m profile st op up).confidence = pickProb st op up := rfl

/-- The edge field of the constructed record. -/
theorem mkSelection_edge (e : Engine) (now : ℤ) (m : MatchRow)
    (profile : String) (st : Variant) (op up : PredPair) :
    (mkSelection e now m profile st op up).edge =
      pickProb st op up - pickImplied m st := rfl

/-- The odds field of the constructed record. -/
theorem mkSelection_odds (e : Engine) (now : ℤ) (m : MatchRow)
    (profile : String) (st : Variant) (op up : PredPair) :
    (mkSelection e now m profile st op up).odds = pickOdds m st := rfl

/-- The stake-percentage field of the constructed record. -/
theorem mkSelection_stake_percentage (e : Engine) (now : ℤ) (m : MatchRow)
    (profile : String) (st : Variant) (op up : PredPair) :
    (mkSelection e now m profile st op up).stake_percentage =
      (clampStake e (calculateKellyStake e.criteria (pickProb st op up)
        (pickOdds m st))).1 := rfl

/-- The stake-amount field of the constructed record. -/
theorem mkSelection_stake_amount (e : Engine) (now : ℤ) (m : MatchRow)
    (profile : String) (st : Variant) (op up : PredPair) :
    (mkSelection e now m profile st op up).stake_amount =
      (clampStake e (calculateKellyStake e.criteria (pickProb st op up)
        (pickOdds m st))).2 := rfl

/-- In both clamp branches the stake amount is the bankroll times the stake
percentage. -/
theorem clampStake_amount (e : Engine) (k : ℚ) :
    (clampStake e k).2 = e.current_bankroll * (clampStake e k).1 := by
  rw [clampStake]
  split <;> rfl

/-- With a positive bankroll, the clamp is exactly `min` with the cap. -/
theorem clampStake_pos (e : Engine) (k : ℚ) (hb : 0 < e.current_bankroll) :
    (clampStake e k).1 = min k e.criteria.max_stake_percentage := by
  rw [clampStake]
  split
  next hgt =>
    have hk : e.criteria.max_stake_percentage < k := (mul_lt_mul_left hb).mp hgt
    simp [min_eq_right hk.le]
  next hle =>
    have hk : k ≤ e.criteria.max_stake_percentage := by
      by_contra hgt
      exact hle ((mul_lt_mul_left hb).mpr (not_le.mp hgt))
    simp [min_eq_left hk]

/-- For odds `≥ 1` the Kelly stake is the literal formula of the source
(odds exactly `1` gives `b = 0` and a zero stake, matching `x / 0 = 0`). -/
theorem calculateKellyStake_eq (c : SelectionCriteria) (p odds : ℚ)
    (ho : 1 ≤ odds) :
    calculateKellyStake c p odds =
      max 0 (((odds - 1) * p - (1 - p)) / (odds - 1) * c.kelly_fraction) := by
  rw [calculateKellyStake]
  by_cases hb : odds - 1 ≤ 0
  · have h0 : odds - 1 = 0 := le_antisymm hb (by linarith)
    rw [if_pos hb, h0]
    simp
  · rw [if_neg hb]

/-- Every emitted selection's stake amount is the engine bankroll times the
stake percentage. -/
theorem selectMatches_stake (e : Engine) (now : ℤ) (df : List MatchRow)
    (profile : String) (s : Selection) (h : s ∈ selectMatches e now df profile) :
    s.stake_amount = e.current_bankroll * s.stake_percentage := by
  obtain ⟨m, st, op, up, hev⟩ := mem_selectMatches e now df profile s h
  obtain ⟨hs, -, -, -⟩ := evaluateSelection_some_eq e now m profile st op up s hev
  subst hs
  rw [mkSelection_stake_amount, mkSelection_stake_percentage, clampStake_amount]

/-! ### Sortedness of the emitted list -/

/-- Stable insertion preserves the descending-confidence invariant. -/
theorem pairwise_insertByConfDesc (s : Selection) (l : List Selection)
    (h : List.Pairwise (fun a b => b.confidence ≤ a.confidence) l) :
    List.Pairwise (fun a b => b.confidence ≤ a.confidence)
      (insertByConfDesc s l) := by
  induction l with
  | nil => simp [insertByConfDesc]
  | cons t ts ih =>
    rw [insertByConfDesc]
    rcases List.pairwise_cons.mp h with ⟨ht, hts⟩
    by_cases hc : t.confidence < s.confidence
    · rw [if_pos hc]
      refine List.pairwise_cons.mpr ⟨?_, h⟩
      intro x hx
      rcases List.mem_cons.mp hx with rfl | hx
      · exact hc.le
      · exact (ht x hx).trans hc.le
    · rw [if_neg hc]
      refine List.pairwise_cons.mpr ⟨?_, ih hts⟩
      intro x hx
      rcases (mem_insertByConfDesc x s ts).mp hx with rfl | hx2
      · exact not_lt.mp hc
      · exact ht x hx2

/-- The sorting fold produces a descending-confidence list. -/
theorem pairwise_foldl_insertByConfDesc (l : List Selection) :
    ∀ acc, List.Pairwise (fun a b => b.confidence ≤ a.confidence) acc →
      List.Pairwise (fun a b => b.confidence ≤ a.confidence)
        (l.foldl (fun ac s => insertByConfDesc s ac) acc) := by
  induction l with
  | nil => intro acc h; exact h
  | cons s ts ih =>
    intro acc h
    exact ih _ (pairwise_insertByConfDesc s acc h)

/-- `sortByConfDesc` sorts by confidence descending. -/
theorem pairwise_sortByConfDesc (l : List Selection) :
    List.Pairwise (fun a b => b.confidence ≤ a.confidence) (sortByConfDesc l) :=
  pairwise_foldl_insertByConfDesc l [] List.Pairwise.nil

/-! ### Backtester frame lemmas -/

/-- `appendReport` touches only `round_reports`. -/
theorem appendReport_engine (bt : Backtester) (r : Option RoundReport) :
    (appendReport bt r).engine = bt.engine ∧
    (appendReport bt r).initial_bankroll = bt.initial_bankroll := by
  cases r <;> exact ⟨rfl, rfl⟩

/-- `_test_week` never touches the engine or the initial bankroll, and every
selection it settles was sized against the engine's (unchanged) bankroll. -/
theorem testWeek_frame (bt : Backtester) (rng : Selection → Bool) (now : ℤ)
    (week_df : List MatchRow) (week_id : String) (hist : List MatchRow) :
    (testWeek bt rng now week_df week_id hist).2.2.engine = bt.engine ∧
    (testWeek bt rng now week_df week_id hist).2.2.initial_bankroll =
      bt.initial_bankroll ∧
    ∀ s ∈ (testWeek bt rng now week_df week_id hist).2.1,
      s.stake_amount = bt.engine.current_bankroll * s.stake_percentage := by
  rw [testWeek]
  split
  next => exact ⟨rfl, rfl, by intro s hs; simp at hs⟩
  next =>
    refine ⟨rfl, rfl, ?_⟩
    intro s hs
    rcases List.mem_append.mp hs with h1 | h2
    · exact selectMatches_stake bt.engine now week_df "profile_a" s h1
    · exact selectMatches_stake bt.engine now week_df "profile_b" s h2

/-- The week fold of `run_backtest` preserves the engine and the initial
bankroll, and every traced selection was staked against the engine's fixed
bankroll. -/
theorem backtest_foldl_frame (rng : Selection → Bool) (now : ℤ)
    (data : List MatchRow) (weeks : List WeekGroup) :
    ∀ (acc : Backtester × List (List Selection)),
      ((weeks.foldl (backtestStep rng now data) acc).1.engine = acc.1.engine ∧
       (weeks.foldl (backtestStep rng now data) acc).1.initial_bankroll =
         acc.1.initial_bankroll) ∧
      (∀ ws ∈ (weeks.foldl (backtestStep rng now data) acc).2,
        ws ∈ acc.2 ∨ ∀ s ∈ ws,
          s.stake_amount = acc.1.engine.current_bankroll * s.stake_percentage) := by
  induction weeks with
  | nil =>
    intro acc
    exact ⟨⟨rfl, rfl⟩, fun ws hws => Or.inl hws⟩
  | cons wk wks ih =>
    intro acc
    rw [List.foldl_cons]
    rcases ih (backtestStep rng now data acc wk) with ⟨⟨he, hi⟩, htr⟩
    have hstep :
        (backtestStep rng now data acc wk).1.engine = acc.1.engine ∧
        (backtestStep rng now data acc wk).1.initial_bankroll =
          acc.1.initial_bankroll ∧
        ∀ ws ∈ (backtestStep rng now data acc wk).2,
          ws ∈ acc.2 ∨ ∀ s ∈ ws,
            s.stake_amount = acc.1.engine.current_bankroll * s.stake_percentage := by
      rw [backtestStep]
      split
      next => exact ⟨rfl, rfl, fun ws hws => Or.inl hws⟩
      next =>
        obtain ⟨hte, hti, hts⟩ :=
          testWeek_frame acc.1 rng now wk.data wk.key
            (data.filter (fun m => m.date < wk.start_date))
        obtain ⟨hae, hai⟩ :=
          appendReport_engine
            (testWeek acc.1 rng now wk.data wk.key
              (data.filter (fun m => m.date < wk.start_date))).2.2
            (testWeek acc.1 rng now wk.data wk.key
              (data.filter (fun m => m.date < wk.start_date))).1
        refine ⟨hae.trans hte, hai.trans hti, ?_⟩
        intro ws hws
        rcases List.mem_append.mp hws with hold | hnew
        · exact Or.inl hold
        · right
          intro s hs
          have hws1 : ws = (testWeek acc.1 rng now wk.data wk.key
              (data.filter (fun m => m.date < wk.start_date))).2.1 := by
            simpa using hnew
          exact hts s (hws1 ▸ hs)
    refine ⟨⟨he.trans hstep.1, hi.trans hstep.2.1⟩, ?_⟩
    intro ws hws
    rcases htr ws hws with hmid | hnew
    · rcases hstep.2.2 ws hmid with hold | hgood
      · exact Or.inl hold
      · exact Or.inr hgood
    · rw [hstep.1] at hnew
      exact Or.inr hnew

/-! ### Claim theorems -/

/-- C1: every Selection emitted by `select_matches` under the default
criteria has confidence at least the configured minimum `0.70`, and its edge
is at least the required edge of its confidence bucket with the tier
thresholds `0.03` (bucket 70-74%), `0.04` (75-79%) and `0.05` (80%+). -/
theorem C1_confidence_and_edge_gates (e : Engine) (now : ℤ) (df : List MatchRow)
    (profile : String) (s : Selection)
    (hc : e.criteria = defaultCriteria)
    (hs : s ∈ selectMatches e now df profile) :
    70/100 ≤ s.confidence ∧
    (if s.confidence ≥ 80/100 then (5/100 : ℚ)
     else if s.confidence ≥ 75/100 then 4/100 else 3/100) ≤ s.edge := by
  obtain ⟨m, st, op, up, hev⟩ := mem_selectMatches e now df profile s hs
  obtain ⟨hmk, hconf, hedge, -⟩ :=
    evaluateSelection_some_eq e now m profile st op up s hev
  subst hmk
  rw [mkSelection_confidence, mkSelection_edge]
  rw [hc] at hconf hedge
  exact ⟨hconf, hedge⟩

/-- C1 witness: the concrete engine emits `exSelAt 0` and the gates hold on
it. -/
theorem C1_confidence_and_edge_gates_witness :
    exEngine.criteria = defaultCriteria ∧
    exSelAt 0 ∈ selectMatches exEngine 0 [exMatchA] "profile_a" ∧
    (70/100 ≤ (exSelAt 0).confidence ∧
      (if (exSelAt 0).confidence ≥ 80/100 then (5/100 : ℚ)
       else if (exSelAt 0).confidence ≥ 75/100 then 4/100 else 3/100) ≤
        (exSelAt 0).edge) := by
  have hmem : exSelAt 0 ∈ selectMatches exEngine 0 [exMatchA] "profile_a" := by
    rw [exSelect]
    exact List.mem_singleton.mpr rfl
  exact ⟨rfl, hmem,
    C1_confidence_and_edge_gates exEngine 0 [exMatchA] "profile_a" (exSelAt 0)
      rfl hmem⟩

/-- C2: for every emitted Selection (positive bankroll, default criteria,
odds at least 1) the stake fraction is the fractional-Kelly value
`(b·p − q)/b` times the conservative multiplier `0.25`, clamped to
`[0, max_stake_percentage] = [0, 0.02]`, and the stake amount is the current
bankroll times that fraction, hence within `[0, bankroll × 0.02]`. -/
theorem C2_fractional_kelly_stake (e : Engine) (now : ℤ) (m : MatchRow)
    (profile : String) (st : Variant) (op up : PredPair) (s : Selection)
    (hb : 0 < e.current_bankroll) (hc : e.criteria = defaultCriteria)
    (ho : 1 ≤ s.odds)
    (h : evaluateSelection e now m profile st op up = some s) :
    s.stake_percentage =
      min (max 0 (((s.odds - 1) * s.confidence - (1 - s.confidence)) /
        (s.odds - 1) * (25/100))) (2/100) ∧
    s.stake_amount = e.current_bankroll * s.stake_percentage ∧
    0 ≤ s.stake_amount ∧
    s.stake_amount ≤ e.current_bankroll * (2/100) := by
  obtain ⟨hmk, -, -, -⟩ := evaluateSelection_some_eq e now m profile st op up s h
  subst hmk
  rw [mkSelection_odds] at ho
  simp only [mkSelection_stake_percentage, mkSelection_stake_amount,
    mkSelection_confidence, mkSelection_odds]
  rw [clampStake_amount, clampStake_pos e _ hb,
    calculateKellyStake_eq e.criteria _ _ ho, hc]
  have hnn : (0:ℚ) ≤
      min (max 0 (((pickOdds m st - 1) * pickProb st op up -
        (1 - pickProb st op up)) / (pickOdds m st - 1) *
        defaultCriteria.kelly_fraction)) defaultCriteria.max_stake_percentage :=
    le_min (le_max_left 0 _) (by norm_num [defaultCriteria])
  refine ⟨rfl, rfl, mul_nonneg hb.le hnn, ?_⟩
  exact mul_le_mul_of_nonneg_left (min_le_right _ _) hb.le

/-- C2 witness: Example A — odds `2.00`, confidence `0.80`, Kelly `0.6`,
times `0.25` gives `0.15`, clamped to `0.02`; stake amount `200`. -/
theorem C2_fractional_kelly_stake_witness :
    (0:ℚ) < exEngine.current_bankroll ∧
    exEngine.criteria = defaultCriteria ∧
    (1:ℚ) ≤ (exSelAt 0).odds ∧
    evaluateSelection exEngine 0 exMatchA "profile_a" .over ⟨4/5, 1/5⟩
      ⟨4/5, 1/5⟩ = some (exSelAt 0) ∧
    ((exSelAt 0).stake_percentage =
        min (max 0 ((((exSelAt 0).odds - 1) * (exSelAt 0).confidence -
          (1 - (exSelAt 0).confidence)) / ((exSelAt 0).odds - 1) * (25/100)))
          (2/100) ∧
      (exSelAt 0).stake_amount =
        exEngine.current_bankroll * (exSelAt 0).stake_percentage ∧
      0 ≤ (exSelAt 0).stake_amount ∧
      (exSelAt 0).stake_amount ≤ exEngine.current_bankroll * (2/100)) ∧
    (exSelAt 0).stake_percentage = 2/100 ∧ (exSelAt 0).stake_amount = 200 := by
  have hb : (0:ℚ) < exEngine.current_bankroll := by norm_num [exEngine]
  have ho : (1:ℚ) ≤ (exSelAt 0).odds := by norm_num [exSelAt]
  exact ⟨hb, rfl, ho, exEval_over 0,
    C2_fractional_kelly_stake exEngine 0 exMatchA "profile_a" .over ⟨4/5, 1/5⟩
      ⟨4/5, 1/5⟩ (exSelAt 0) hb rfl ho (exEval_over 0),
    by norm_num [exSelAt], by norm_num [exSelAt]⟩

/-- C3: `_test_week` accepts the strictly-pre-week `historical_data` that
`run_backtest` gathers, but its result — including every probability
estimate consumed, which comes from the engine's models as loaded before the
run — does not depend on it in any way.  The claimed no-lookahead property
therefore has no enforcement point: with models fitted on the full dataset
(as `run_full_pipeline` does), week W consumes estimates derived from data
in and after W. -/
theorem C3_testWeek_ignores_historical_data :
    ∀ (bt : Backtester) (rng : Selection → Bool) (now : ℤ)
      (week_df : List MatchRow) (week_id : String)
      (h1 h2 : List MatchRow),
      testWeek bt rng now week_df week_id h1 =
        testWeek bt rng now week_df week_id h2 :=
  fun _ _ _ _ _ _ _ => rfl

/-- C4 counterexample: the same `(match, variant)` key, qualifying on two
consecutive recompute cycles of one live session, is alerted twice — there
is no already-alerted key set anywhere in the pipeline. -/
theorem C4_counterexample :
    liveRunAlerts exEngine [(0, [exLiveMatch]), (1800, [exLiveMatch])] =
      [("m1", Variant.over), ("m1", Variant.over)] := by
  simp only [liveRunAlerts, List.foldr, alertKeys, exRecompute]
  simp [exSelAt]

/-- C4 amended: every cycle in which a selection qualifies dispatches an
alert; the session's alerts are the concatenation of the per-cycle alerts
(no state connects cycles), so a key re-qualifying on three consecutive
cycles is alerted three times. -/
theorem C4_alert_every_cycle :
    (∀ (e : Engine) (t : ℤ) (ms : List LiveMatch)
        (rest : List (ℤ × List LiveMatch)),
      liveRunAlerts e ((t, ms) :: rest) =
        alertKeys e t ms ++ liveRunAlerts e rest) ∧
    liveRunAlerts exEngine
        [(0, [exLiveMatch]), (1800, [exLiveMatch]), (3600, [exLiveMatch])] =
      [("m1", Variant.over), ("m1", Variant.over), ("m1", Variant.over)] := by
  constructor
  · intro e t ms rest
    rfl
  · simp only [liveRunAlerts, List.foldr, alertKeys, exRecompute]
    simp [exSelAt]

/-- C5 counterexample: the selection alerted at the cycle at time `0`
carries `cutoff_time = 3600`; at the later cycle at time `7200` the same
candidate is still in the evaluation set and is re-evaluated and re-alerted
— nothing excludes candidates past their cutoff. -/
theorem C5_counterexample :
    ((recomputeSelections exEngine 0 [exLiveMatch]).map
        (fun s => s.cutoff_time) = [3600]) ∧
    ((3600 : ℤ) < 7200) ∧
    exLiveMatch ∈ cycleEvaluationSet [exLiveMatch] ∧
    ((recomputeSelections exEngine 7200 [exLiveMatch]).map
        (fun s => (s.match_id, s.selection_type)) = [("m1", Variant.over)]) := by
  refine ⟨?_, by norm_num, ?_, ?_⟩
  · rw [exRecompute]
    simp [exSelAt]
  · simp [cycleEvaluationSet, exLiveMatch]
  · rw [exRecompute]
    simp [exSelAt]

/-- C5 amended: the live evaluation set applies no staleness filtering at
all — membership depends only on being fetched with one of the two profile
tags, never on the clock or any cutoff. -/
theorem C5_no_staleness_filter (m : LiveMatch) (upcoming : List LiveMatch) :
    m ∈ cycleEvaluationSet upcoming ↔
      m ∈ upcoming ∧ (m.profile = "profile_a" ∨ m.profile = "profile_b") := by
  show m ∈ upcoming.filter (fun x => x.profile == "profile_a") ++
      upcoming.filter (fun x => x.profile == "profile_b") ↔ _
  simp only [List.mem_append, List.mem_filter, beq_iff_eq]
  tauto

/-- C6 counterexample: after `update_performance` settles the six losses of
`exE6` the drawdown is `12% > 10%`, yet the resulting engine still emits a
selection on the very next evaluation, and a further `update_performance`
call still moves the bankroll — no sticky halt flag exists. -/
theorem C6_counterexample :
    ((exE6.bankroll -
        (updatePerformance exE6 exResultsLose).current_bankroll) /
      exE6.bankroll > exE6.criteria.stop_loss_percentage) ∧
    selectMatches (updatePerformance exE6 exResultsLose) 0 [exMatchA]
      "profile_a" = [exSel6] ∧
    (updatePerformance (updatePerformance exE6 exResultsLose)
        exResultsLose).current_bankroll ≠
      (updatePerformance exE6 exResultsLose).current_bankroll := by
  rw [exUpdate6]
  refine ⟨?_, exSelect6, ?_⟩
  · norm_num [exE6, exE6b, defaultCriteria]
  · rw [exUpdate6again]
    norm_num [exE6b]

/-- C6 amended: there is no halt flag.  When a settlement pushes the
drawdown past `stop_loss_percentage`, `update_performance` merely stops
settling the remaining results of that one call (the `break`), and the only
field it ever writes is `current_bankroll`; nothing suppresses later
selections or later settlement calls, and the backtester applies no
stop-loss check at all. -/
theorem C6_break_only_no_flag (c : SelectionCriteria) (b0 bank : ℚ)
    (results : ResultsDict) (s : Selection) (rest : List Selection)
    (e : Engine)
    (hlk : results.lookup s.match_id = some false)
    (hdd : (b0 - (bank - s.stake_amount)) / b0 > c.stop_loss_percentage) :
    settleWithStop c b0 results bank (s :: rest) = bank - s.stake_amount ∧
    (updatePerformance e results).criteria = e.criteria ∧
    (updatePerformance e results).models = e.models ∧
    (updatePerformance e results).bankroll = e.bankroll ∧
    (updatePerformance e results).selections_history = e.selections_history := by
  refine ⟨?_, rfl, rfl, rfl, rfl⟩
  rw [settleWithStop, hlk]
  simp [hdd]

/-- C6 amended witness: a concrete halt-triggering settlement that leaves
the rest of the batch unsettled. -/
theorem C6_break_only_no_flag_witness :
    exResultsLose.lookup (lossSel "l1").match_id = some false ∧
    ((10000 - ((9100:ℚ) - (lossSel "l1").stake_amount)) / 10000 >
      defaultCriteria.stop_loss_percentage) ∧
    (settleWithStop defaultCriteria 10000 exResultsLose 9100
        [lossSel "l1", lossSel "l2"] = 9100 - (lossSel "l1").stake_amount ∧
      (updatePerformance exE6 exResultsLose).criteria = exE6.criteria ∧
      (updatePerformance exE6 exResultsLose).models = exE6.models ∧
      (updatePerformance exE6 exResultsLose).bankroll = exE6.bankroll ∧
      (updatePerformance exE6 exResultsLose).selections_history =
        exE6.selections_history) := by
  have h1 : exResultsLose.lookup (lossSel "l1").match_id = some false := by
    simp [exResultsLose, lossSel, List.lookup]
  have h2 : (10000 - ((9100:ℚ) - (lossSel "l1").stake_amount)) / 10000 >
      defaultCriteria.stop_loss_percentage := by
    norm_num [lossSel, defaultCriteria]
  exact ⟨h1, h2,
    C6_break_only_no_flag defaultCriteria 10000 9100 exResultsLose
      (lossSel "l1") [lossSel "l2"] exE6 h1 h2⟩

/-- C7 counterexample: when both variants of the same match pass all gates,
`select_matches` keeps both — it does not keep only the higher-confidence
variant. -/
theorem C7_counterexample :
    (selectMatches exEngine7 0 [exMatch7] "profile_a").map
        (fun s => (s.match_id, s.selection_type)) =
      [("m1", Variant.over), ("m1", Variant.under)] := by
  rw [exSelect7]
  simp [exSel7over, exSel7under]

/-- C7 amended: no per-match deduplication exists.  Both passing variants of
a match are emitted; the output is only stable-sorted by confidence
descending (equal confidences keep insertion order — not re-ordered by edge
or match id) and truncated to `max_selections_per_round`, while the computed
per-profile truncation is discarded (`max_selections_per_profile` has no
effect on the result). -/
theorem C7_both_variants_kept :
    (selectMatches exEngine7 0 [exMatch7] "profile_a" =
        [exSel7over, exSel7under] ∧
      exSel7over.match_id = exSel7under.match_id ∧
      exSel7under.confidence < exSel7over.confidence) ∧
    (∀ (e : Engine) (k : ℕ) (now : ℤ) (df : List MatchRow) (profile : String),
      selectMatches
          { e with criteria :=
              { e.criteria with max_selections_per_profile := k } }
          now df profile =
        selectMatches e now df profile) ∧
    (∀ (e : Engine) (now : ℤ) (df : List MatchRow) (profile : String),
      List.Pairwise (fun a b => b.confidence ≤ a.confidence)
        (selectMatches e now df profile)) ∧
    (selectMatches exEngine 0 [exMatchT1, exMatchT2] "profile_a" =
        [exSelT1, exSelT2] ∧
      exSelT1.confidence = exSelT2.confidence ∧
      exSelT1.edge < exSelT2.edge) := by
  refine ⟨⟨exSelect7, rfl, by norm_num [exSel7over, exSel7under]⟩, ?_, ?_,
    exSelectT, by norm_num [exSelT1, exSelT2], by norm_num [exSelT1, exSelT2]⟩
  · intro e k now df profile
    rfl
  · intro e now df profile
    rw [selectMatches]
    rcases hm : modelsFalsy e.models with _ | _
    · simp only [Bool.false_eq_true, if_false]
      exact (pairwise_sortByConfDesc _).sublist (List.take_sublist _ _)
    · simp

/-- C8 counterexample: a candidate that passes every other gate is rejected
purely because its closing odds column is absent (the CLV defaults to `0`,
below `clv_min = 0.02`); the identical candidate with closing odds present
is accepted. -/
theorem C8_counterexample :
    pickClosing exMatchNoClose .over = none ∧
    evaluateSelection exEngine 0 exMatchNoClose "profile_a" .over ⟨4/5, 1/5⟩
      ⟨4/5, 1/5⟩ = none ∧
    evaluateSelection exEngine 0 exMatchA "profile_a" .over ⟨4/5, 1/5⟩
      ⟨4/5, 1/5⟩ = some (exSelAt 0) :=
  ⟨rfl, exEvalNoClose, exEval_over 0⟩

/-- C8 amended: the CLV gate is evaluated unconditionally.  Given the
confidence and edge gates pass, the candidate is accepted iff
`CLV ≥ clv_min`, where absent closing odds default to the opening odds and
hence give `CLV = 0` — so with any positive `clv_min` the absence itself
rejects the candidate. -/
theorem C8_clv_gate_unconditional (e : Engine) (now : ℤ) (m : MatchRow)
    (profile : String) (st : Variant) (op up : PredPair)
    (h1 : ¬ pickProb st op up < e.criteria.min_confidence)
    (h2 : ¬ pickProb st op up - pickImplied m st <
      getRequiredEdge e.criteria (pickProb st op up)) :
    ((evaluateSelection e now m profile st op up).isSome ↔
      ¬ clvOf m st < e.criteria.clv_min) ∧
    (pickClosing m st = none → clvOf m st = 0) := by
  constructor
  · rw [evaluateSelection, if_neg h1, if_neg h2]
    by_cases h3 : clvOf m st < e.criteria.clv_min
    · simp [h3]
    · simp [h3]
  · intro hn
    rw [clvOf, hn]
    simp

/-- C8 amended witness: at the concrete no-closing-odds candidate the gate
hypotheses hold and the CLV rejection fires. -/
theorem C8_clv_gate_unconditional_witness :
    (¬ pickProb .over ⟨4/5, 1/5⟩ ⟨4/5, 1/5⟩ <
        exEngine.criteria.min_confidence) ∧
    (¬ pickProb .over ⟨4/5, 1/5⟩ ⟨4/5, 1/5⟩ -
        pickImplied exMatchNoClose .over <
      getRequiredEdge exEngine.criteria
        (pickProb .over ⟨4/5, 1/5⟩ ⟨4/5, 1/5⟩)) ∧
    (((evaluateSelection exEngine 0 exMatchNoClose "profile_a" .over
          ⟨4/5, 1/5⟩ ⟨4/5, 1/5⟩).isSome ↔
        ¬ clvOf exMatchNoClose .over < exEngine.criteria.clv_min) ∧
      (pickClosing exMatchNoClose .over = none →
        clvOf exMatchNoClose .over = 0)) := by
  have h1 : ¬ pickProb .over ⟨4/5, 1/5⟩ ⟨4/5, 1/5⟩ <
      exEngine.criteria.min_confidence := by
    norm_num [pickProb, exEngine, defaultCriteria]
  have h2 : ¬ pickProb .over ⟨4/5, 1/5⟩ ⟨4/5, 1/5⟩ -
      pickImplied exMatchNoClose .over <
      getRequiredEdge exEngine.criteria
        (pickProb .over ⟨4/5, 1/5⟩ ⟨4/5, 1/5⟩) := by
    norm_num [pickProb, pickImplied, exMatchNoClose, getRequiredEdge,
      exEngine, defaultCriteria]
  exact ⟨h1, h2,
    C8_clv_gate_unconditional exEngine 0 exMatchNoClose "profile_a" .over
      ⟨4/5, 1/5⟩ ⟨4/5, 1/5⟩ h1 h2⟩

/-- C9 counterexample: for a `(profile, target)` key with no model, the
prediction path returns the plain probability pair `0.5/0.5` — bit-for-bit
the same value a genuinely loaded model predicting `0.5` returns — rather
than any explicit no-model signal. -/
theorem C9_counterexample :
    exModels.lookup ("profile_b" ++ "_" ++ "over_2_5") = none ∧
    getModelPrediction (some exModels) exMatchA "profile_b" "over_2_5" =
      ⟨1/2, 1/2⟩ ∧
    getModelPrediction
        (some [("profile_b_over_2_5", [fun _ => some (1/2)])])
        exMatchA "profile_b" "over_2_5" = ⟨1/2, 1/2⟩ := by
  refine ⟨by simp [exModels, List.lookup], ?_, ?_⟩
  · rw [getModelPrediction]
    simp [modelsFalsy, exModels, List.lookup]
  · rw [getModelPrediction]
    simp [modelsFalsy, List.lookup, List.filterMap]
    norm_num

/-- C9 amended: a missing model key silently yields the probability pair
`0.5/0.5` (no typed no-model result exists); the downstream confidence gate
then rejects it (`0.5 < 0.70`), so no Selection is emitted for that
candidate. -/
theorem C9_missing_model_defaults_half (models : ModelRegistry) (m : MatchRow)
    (profile target : String) (e : Engine) (now : ℤ) (prof2 : String)
    (row : MatchRow) (st : Variant)
    (hlk : models.lookup (profile ++ "_" ++ target) = none)
    (hc : e.criteria = defaultCriteria) :
    getModelPrediction (some models) m profile target = ⟨1/2, 1/2⟩ ∧
    evaluateSelection e now row prof2 st ⟨1/2, 1/2⟩ ⟨1/2, 1/2⟩ = none := by
  constructor
  · rw [getModelPrediction]
    rcases hm : modelsFalsy (some models) with _ | _
    · simp only [Bool.false_eq_true, if_false, Option.getD_some, hlk]
    · simp
  · have hp : pickProb st ⟨1/2, 1/2⟩ ⟨1/2, 1/2⟩ = 1/2 := by
      cases st <;> rfl
    rw [evaluateSelection, hc, if_pos]
    rw [hp]
    norm_num [defaultCriteria]

/-- C9 amended witness: the concrete missing key. -/
theorem C9_missing_model_defaults_half_witness :
    exModels.lookup ("profile_b" ++ "_" ++ "over_2_5") = none ∧
    exEngine.criteria = defaultCriteria ∧
    (getModelPrediction (some exModels) exMatchA "profile_b" "over_2_5" =
        ⟨1/2, 1/2⟩ ∧
      evaluateSelection exEngine 0 exMatchA "profile_a" .over ⟨1/2, 1/2⟩
        ⟨1/2, 1/2⟩ = none) := by
  have h1 : exModels.lookup ("profile_b" ++ "_" ++ "over_2_5") = none := by
    simp [exModels, List.lookup]
  exact ⟨h1, rfl,
    C9_missing_model_defaults_half exModels exMatchA "profile_b" "over_2_5"
      exEngine 0 "profile_a" exMatchA .over h1 rfl⟩

/-- C10: a backtest run never writes the engine: settlement
(`_update_bankroll`) mutates only the backtester's own `current_bankroll`
and `bankroll_history`, `SelectionEngine.current_bankroll` is unchanged
through the whole run, and every traced selection of every week was staked
against the engine's initial (never-settled) bankroll. -/
theorem C10_engine_bankroll_frozen (isoWeek : ℤ → ℤ × ℤ)
    (rng : Selection → Bool) (bt : Backtester) (now : ℤ) (df : List MatchRow)
    (sd ed : ℤ) :
    (∀ (sels : List Selection) (res : ResultsDict),
      (updateBankroll bt sels res).engine = bt.engine ∧
      (updateBankroll bt sels res).initial_bankroll = bt.initial_bankroll ∧
      (updateBankroll bt sels res).round_reports = bt.round_reports) ∧
    (runBacktest isoWeek rng bt now df sd ed).1.engine = bt.engine ∧
    (runBacktest isoWeek rng bt now df sd ed).1.initial_bankroll =
      bt.initial_bankroll ∧
    ((runBacktest isoWeek rng bt now df sd ed).2.all (fun ws =>
      ws.all (fun s =>
        decide (s.stake_amount =
          bt.engine.current_bankroll * s.stake_percentage)))) = true := by
  refine ⟨fun sels res => ⟨rfl, rfl, rfl⟩, ?_⟩
  have h := backtest_foldl_frame rng now
    (sortByDate (df.filter (fun m => sd ≤ m.date ∧ m.date ≤ ed)))
    (groupByWeeks isoWeek
      (sortByDate (df.filter (fun m => sd ≤ m.date ∧ m.date ≤ ed))))
    (bt, [])
  refine ⟨h.1.1, h.1.2, ?_⟩
  rw [List.all_eq_true]
  intro ws hws
  rw [List.all_eq_true]
  intro s hs
  rcases h.2 ws hws with hemp | hgood
  · simp at hemp
  · exact decide_eq_true (hgood s hs)

end Betflow
